import Mathlib

/-!
Verification of the Escrow-web3 repository core: the on-chain escrow state
machine (`src/contracts/contracts/Escrow.sol`) and the off-chain event
indexer (`EventListenerService`, backend blockchain module).

The Solidity contract is shallowly embedded: `uint256` values are `Nat`
with explicit checked-arithmetic guards where the source performs
arithmetic (Solidity 0.8 reverts on overflow/underflow), addresses are
`Nat` (0 is the zero address), a reverting call is `Except.error` (which
by construction leaves all state unchanged, matching EVM revert
semantics), and a successful call returns the new contract state together
with the ordered list of observable actions (status writes and external
value transfers) in source execution order.  External transfers are
modelled as succeeding: a failing transfer makes the whole call revert,
which coincides with an `Except.error` outcome that produces no state.
-/

namespace EscrowWeb3

/-- `EscrowStatus` enum of `Escrow.sol` (declaration order gives the
on-chain numeric codes 0..5). -/
inductive EscrowStatus
  | CREATED
  | FUNDED
  | DISPUTED
  | RELEASED
  | REFUNDED
  | CANCELLED
deriving DecidableEq, Repr

/-- Numeric code of a status as stored on chain (enum ordinal) and mirrored
into the replica database. -/
def EscrowStatus.toCode : EscrowStatus → Nat
  | .CREATED => 0
  | .FUNDED => 1
  | .DISPUTED => 2
  | .RELEASED => 3
  | .REFUNDED => 4
  | .CANCELLED => 5

/-- `struct EscrowData` of `Escrow.sol`.  Addresses and uint256 fields are
`Nat`; `token = 0` denotes the native asset (address(0) in the source). -/
structure EscrowData where
  client : Nat
  provider : Nat
  arbitrator : Nat
  token : Nat
  amount : Nat
  fee : Nat
  status : EscrowStatus
  createdAt : Nat
  deadline : Nat
  description : String
deriving DecidableEq, Repr

/-- The all-zero `EscrowData`, the value a Solidity mapping yields for an
id that was never written (its `client` is the zero address, which is what
the `escrowExists` modifier tests). -/
def EscrowData.empty : EscrowData :=
  { client := 0, provider := 0, arbitrator := 0, token := 0, amount := 0,
    fee := 0, status := .CREATED, createdAt := 0, deadline := 0,
    description := "" }

/-- Contract-level storage of `Escrow.sol`. -/
structure ContractState where
  escrowIdCounter : Nat
  escrows : Nat → EscrowData
  authorizedArbitrators : Nat → Bool
  defaultFee : Nat
  feeCollector : Nat
  collectedFees : Nat → Nat

/-- `MAX_FEE` constant (10% in basis points). -/
def MAX_FEE : Nat := 1000

/-- `FEE_DENOMINATOR` constant (basis-point denominator). -/
def FEE_DENOMINATOR : Nat := 10000

/-- One past the largest `uint256` value; Solidity 0.8 checked arithmetic
reverts when a result would reach this bound. -/
def U256 : Nat := 2 ^ 256

/-- Point update of the `escrows` mapping. -/
def setEscrowMap (m : Nat → EscrowData) (i : Nat) (e : EscrowData) :
    Nat → EscrowData :=
  fun j => if j = i then e else m j

/-- Point update of the `collectedFees` mapping. -/
def bumpCollected (m : Nat → Nat) (t : Nat) (a : Nat) : Nat → Nat :=
  fun u => if u = t then m u + a else m u

/-- The contract state after the storage write `escrows[i].status = st`
(all other storage untouched). -/
def setStatusState (s : ContractState) (i : Nat) (st : EscrowStatus) : ContractState :=
  { s with escrows := setEscrowMap s.escrows i { s.escrows i with status := st } }

/-- Revert reasons of the contract functions relevant to the embedded
operations, one constructor per distinct `require` message (plus the
checked-arithmetic panic). -/
inductive EscrowError
  | escrowMissing        -- "Escrow does not exist"
  | invalidStatus        -- "Invalid escrow status" / "Invalid status for refund"
  | notClient            -- "Not the client"
  | notArbitrator        -- "Not an authorized arbitrator"
  | notAuthorizedRelease -- "Not authorized to release"
  | notPartyToDispute    -- "Only client or provider can open dispute"
  | wrongEthAmount       -- "Incorrect ETH amount"
  | ethNotAccepted       -- "ETH not accepted for token escrow"
  | arithmeticOverflow   -- Solidity 0.8 checked-arithmetic revert
deriving DecidableEq, Repr

/-- Observable actions of one contract call, in execution order: storage
writes of a record status, outgoing external value transfers
(native call or ERC20 `safeTransfer`), and the incoming ERC20
`safeTransferFrom` pull performed by `fundEscrow`. -/
inductive Action
  | setStatus (escrowId : Nat) (st : EscrowStatus)
  | extTransfer (token dest amount : Nat)
  | extTransferFrom (token src amount : Nat)
deriving DecidableEq, Repr

/-- `feeAmount` computed by `releaseToProvider`
(`escrow.amount * escrow.fee / FEE_DENOMINATOR`, floor division). -/
def feeAmountOf (e : EscrowData) : Nat :=
  e.amount * e.fee / FEE_DENOMINATOR

/-- `providerAmount` computed by `releaseToProvider`
(`escrow.amount - feeAmount`). -/
def providerAmountOf (e : EscrowData) : Nat :=
  e.amount - feeAmountOf e

/-- `fundEscrow(uint256)` of `Escrow.sol`.  Modifier order of the source:
`nonReentrant` (no effect in this single-call model), `escrowExists`,
`inStatus(CREATED)`, `onlyClient`; then the native / ERC20 branch on
`escrow.token`, then the status write to `FUNDED`. -/
def fundEscrow (caller value : Nat) (s : ContractState) (escrowId : Nat) :
    Except EscrowError (ContractState × List Action) :=
  if (s.escrows escrowId).client = 0 then .error .escrowMissing
  else if (s.escrows escrowId).status = .CREATED then
    if caller = (s.escrows escrowId).client then
      if (s.escrows escrowId).token = 0 then
        -- Native ETH: msg.value must equal the escrow amount.
        if value = (s.escrows escrowId).amount then
          .ok (setStatusState s escrowId .FUNDED,
               [Action.setStatus escrowId .FUNDED])
        else .error .wrongEthAmount
      else
        -- ERC20: no msg.value, pull `amount` from the caller, then mark FUNDED.
        if value = 0 then
          .ok (setStatusState s escrowId .FUNDED,
               [Action.extTransferFrom (s.escrows escrowId).token caller
                  (s.escrows escrowId).amount,
                Action.setStatus escrowId .FUNDED])
        else .error .ethNotAccepted
    else .error .notClient
  else .error .invalidStatus

/-- `releaseToProvider(uint256)` of `Escrow.sol`.  Source order:
`escrowExists`, `inStatus(FUNDED)` modifiers, the client-or-arbitrator
authorization `require`, the status write to `RELEASED`, the fee split,
then the transfer to the provider followed (when the fee is nonzero) by
the transfer to the fee collector and the `collectedFees` increment.
Checked arithmetic: the multiplication `amount * fee` and the addition to
`collectedFees` revert on uint256 overflow, the subtraction on
underflow. -/
def releaseToProvider (caller : Nat) (s : ContractState) (escrowId : Nat) :
    Except EscrowError (ContractState × List Action) :=
  if (s.escrows escrowId).client = 0 then .error .escrowMissing
  else if (s.escrows escrowId).status = .FUNDED then
    if caller = (s.escrows escrowId).client ∨
       caller = (s.escrows escrowId).arbitrator ∨
       s.authorizedArbitrators caller = true then
      if U256 ≤ (s.escrows escrowId).amount * (s.escrows escrowId).fee then
        .error .arithmeticOverflow
      else if (s.escrows escrowId).amount < feeAmountOf (s.escrows escrowId) then
        .error .arithmeticOverflow
      else
        if feeAmountOf (s.escrows escrowId) = 0 then
          .ok (setStatusState s escrowId .RELEASED,
               [Action.setStatus escrowId .RELEASED,
                Action.extTransfer (s.escrows escrowId).token
                  (s.escrows escrowId).provider
                  (providerAmountOf (s.escrows escrowId))])
        else
          if U256 ≤ s.collectedFees (s.escrows escrowId).token +
               feeAmountOf (s.escrows escrowId) then
            .error .arithmeticOverflow
          else
            .ok ({ setStatusState s escrowId .RELEASED with
                    collectedFees := bumpCollected s.collectedFees
                      (s.escrows escrowId).token
                      (feeAmountOf (s.escrows escrowId)) },
                 [Action.setStatus escrowId .RELEASED,
                  Action.extTransfer (s.escrows escrowId).token
                    (s.escrows escrowId).provider
                    (providerAmountOf (s.escrows escrowId)),
                  Action.extTransfer (s.escrows escrowId).token
                    s.feeCollector (feeAmountOf (s.escrows escrowId))])
    else .error .notAuthorizedRelease
  else .error .invalidStatus

/-- `refundToClient(uint256)` of `Escrow.sol`.  Source order:
`nonReentrant`, `escrowExists`, `onlyArbitrator` modifiers
(`authorizedArbitrators[msg.sender] || escrows[id].arbitrator == msg.sender`),
then the in-body status `require` (FUNDED or DISPUTED), the status write
to `REFUNDED`, and the full-amount transfer to the client (no fee). -/
def refundToClient (caller : Nat) (s : ContractState) (escrowId : Nat) :
    Except EscrowError (ContractState × List Action) :=
  if (s.escrows escrowId).client = 0 then .error .escrowMissing
  else if s.authorizedArbitrators caller = true ∨
          caller = (s.escrows escrowId).arbitrator then
    if (s.escrows escrowId).status = .FUNDED ∨
       (s.escrows escrowId).status = .DISPUTED then
      .ok (setStatusState s escrowId .REFUNDED,
           [Action.setStatus escrowId .REFUNDED,
            Action.extTransfer (s.escrows escrowId).token
              (s.escrows escrowId).client (s.escrows escrowId).amount])
    else .error .invalidStatus
  else .error .notArbitrator

/-- `openDispute(uint256)` of `Escrow.sol`: `escrowExists`,
`inStatus(FUNDED)`, the client-or-provider `require`, status write to
`DISPUTED`, no fund movement. -/
def openDispute (caller : Nat) (s : ContractState) (escrowId : Nat) :
    Except EscrowError (ContractState × List Action) :=
  if (s.escrows escrowId).client = 0 then .error .escrowMissing
  else if (s.escrows escrowId).status = .FUNDED then
    if caller = (s.escrows escrowId).client ∨
       caller = (s.escrows escrowId).provider then
      .ok (setStatusState s escrowId .DISPUTED,
           [Action.setStatus escrowId .DISPUTED])
    else .error .notPartyToDispute
  else .error .invalidStatus

/-- `resolveDispute(uint256,bool)` of `Escrow.sol`: `escrowExists`,
`inStatus(DISPUTED)`, `onlyArbitrator` modifiers; then (after emitting
`DisputeResolved`, an event and hence not an embedded action) either a
delegated `refundToClient` call, or — for a provider-favouring ruling —
a temporary status overwrite to `FUNDED` followed by a delegated
`releaseToProvider` call, the caller identity being preserved by the
internal calls.  An error from the delegate reverts the whole
transaction, discarding the temporary overwrite. -/
def resolveDispute (caller : Nat) (s : ContractState) (escrowId : Nat)
    (inFavorOfClient : Bool) :
    Except EscrowError (ContractState × List Action) :=
  if (s.escrows escrowId).client = 0 then .error .escrowMissing
  else if (s.escrows escrowId).status = .DISPUTED then
    if s.authorizedArbitrators caller = true ∨
       caller = (s.escrows escrowId).arbitrator then
      if inFavorOfClient then
        refundToClient caller s escrowId
      else
        releaseToProvider caller (setStatusState s escrowId .FUNDED) escrowId
    else .error .notArbitrator
  else .error .invalidStatus

/-- `cancelEscrow(uint256)` of `Escrow.sol`: `escrowExists`,
`inStatus(CREATED)`, `onlyClient`, status write to `CANCELLED`, no fund
movement. -/
def cancelEscrow (caller : Nat) (s : ContractState) (escrowId : Nat) :
    Except EscrowError (ContractState × List Action) :=
  if (s.escrows escrowId).client = 0 then .error .escrowMissing
  else if (s.escrows escrowId).status = .CREATED then
    if caller = (s.escrows escrowId).client then
      .ok (setStatusState s escrowId .CANCELLED,
           [Action.setStatus escrowId .CANCELLED])
    else .error .notClient
  else .error .invalidStatus

/-- A status from which `Escrow.sol` permits no further transition
(RELEASED, REFUNDED or CANCELLED). -/
def EscrowStatus.isTerminal : EscrowStatus → Prop
  | .RELEASED => True
  | .REFUNDED => True
  | .CANCELLED => True
  | _ => False

instance : DecidablePred EscrowStatus.isTerminal := by
  intro st
  cases st <;> simp [EscrowStatus.isTerminal] <;> infer_instance

/-!
Event indexer (`EventListenerService` of the backend blockchain module).
The replica store is a list of records (TypeORM repository over the
`escrows` table, unique index on `(chainId, escrowId)`); `findOne` with a
`(chainId, escrowId)` where-clause and `save` are embedded below.
Addresses are `Nat` as on the contract side; the `.toLowerCase()`
normalisation applied to address strings does not change the address
value and is therefore invisible in this representation.
-/

/-- One row of the `escrows` replica table as built by the indexer
handlers (entity fields populated by `handleEscrowCreated`). -/
structure ReplicaRecord where
  chainId : Nat
  escrowId : Nat
  client : Nat
  provider : Nat
  arbitrator : Nat
  token : Nat
  amount : Nat
  fee : Nat
  status : Nat
  deadline : Option Nat
  description : String
  transactionHash : Nat
  blockNumber : Nat
deriving DecidableEq, Repr

/-- Key predicate of the repository where-clause
`{ chainId, escrowId }`. -/
def keyMatches (c i : Nat) (r : ReplicaRecord) : Bool :=
  r.chainId == c && r.escrowId == i

/-- `escrowRepository.findOne({ where: { chainId, escrowId } })`. -/
def findOne (db : List ReplicaRecord) (c i : Nat) : Option ReplicaRecord :=
  db.find? (keyMatches c i)

/-- `escrowRepository.save(record)`: update in place when a row with the
record key already exists, insert otherwise. -/
def saveRecord (db : List ReplicaRecord) (r : ReplicaRecord) : List ReplicaRecord :=
  if (findOne db r.chainId r.escrowId).isSome then
    db.map (fun x => if keyMatches r.chainId r.escrowId x then r else x)
  else db ++ [r]

/-- Payload of an `EscrowCreated` log event
(`escrowId, client, provider, token, amount, deadline` arguments plus the
transaction hash and block number read off the event object). -/
structure CreatedEvent where
  escrowId : Nat
  client : Nat
  provider : Nat
  token : Nat
  amount : Nat
  deadline : Nat
  transactionHash : Nat
  blockNumber : Nat
deriving DecidableEq, Repr

/-- Payload of an `EscrowFunded` log event (only `escrowId` is used by the
handler). -/
structure FundedEvent where
  escrowId : Nat
  funder : Nat
  amount : Nat
deriving DecidableEq, Repr

/-- The replica row `handleEscrowCreated` constructs for an absent key:
event-carried fields from the event payload, the rest from the canonical
`getEscrow` read. -/
def createdRow (canonical : Nat → EscrowData) (chainId : Nat)
    (ev : CreatedEvent) : ReplicaRecord :=
  { chainId := chainId
    escrowId := ev.escrowId
    client := ev.client
    provider := ev.provider
    arbitrator := (canonical ev.escrowId).arbitrator
    token := ev.token
    amount := ev.amount
    fee := (canonical ev.escrowId).fee
    status := (canonical ev.escrowId).status.toCode
    deadline := if ev.deadline > 0 then some ev.deadline else none
    description := (canonical ev.escrowId).description
    transactionHash := ev.transactionHash
    blockNumber := ev.blockNumber }

/-- `handleEscrowCreated` of `EventListenerService`: skip when a record
with the same `(chainId, escrowId)` already exists; otherwise read the
canonical record from the contract (`blockchainService.getEscrow`) to
fill the fields the event does not carry, and save the new row.
`canonical` is the chain-side `getEscrow` view. -/
def handleEscrowCreated (canonical : Nat → EscrowData) (chainId : Nat)
    (ev : CreatedEvent) (db : List ReplicaRecord) : List ReplicaRecord :=
  match findOne db chainId ev.escrowId with
  | some _ => db
  | none => saveRecord db (createdRow canonical chainId ev)

/-- `handleEscrowFunded` of `EventListenerService`: look the record up by
`(chainId, escrowId)`; when present, set its status to `1` (FUNDED) and
save; when absent, do nothing (the `if (escrow)` guard has no else
branch). -/
def handleEscrowFunded (chainId : Nat) (ev : FundedEvent)
    (db : List ReplicaRecord) : List ReplicaRecord :=
  match findOne db chainId ev.escrowId with
  | some escrow => saveRecord db { escrow with status := 1 }
  | none => db

/-- The chain as seen by one `syncChainEvents` cycle: the current block
number, the `queryFilter` results for the two handled event filters over
an inclusive block range, and the canonical `getEscrow` view. -/
structure ChainView where
  currentBlock : Nat
  createdEvents : Nat → Nat → List CreatedEvent
  fundedEvents : Nat → Nat → List FundedEvent
  canonical : Nat → EscrowData

/-- The block window `syncChainEvents` queries, from
`fromBlock = lastSyncedBlocks.get(chainId) || 0` (the raw cursor, `0`
when unset) to `currentBlock`, both ends inclusive; `none` when the
cycle returns early (`fromBlock >= currentBlock`). -/
def syncWindow (cursor : Option Nat) (currentBlock : Nat) : Option (Nat × Nat) :=
  if cursor.getD 0 ≥ currentBlock then none
  else some (cursor.getD 0, currentBlock)

/-- `syncChainEvents` of `EventListenerService`: early-return when the
window is empty, otherwise apply `handleEscrowCreated` to every
`EscrowCreated` event of the window in order, then `handleEscrowFunded`
to every `EscrowFunded` event, and advance the cursor to
`currentBlock`.  Returns the new cursor entry and replica. -/
def syncChainEvents (view : ChainView) (chainId : Nat) (cursor : Option Nat)
    (db : List ReplicaRecord) : Option Nat × List ReplicaRecord :=
  if cursor.getD 0 ≥ view.currentBlock then (cursor, db)
  else
    (some view.currentBlock,
     ((view.createdEvents (cursor.getD 0) view.currentBlock).foldl
         (fun d ev => handleEscrowCreated view.canonical chainId ev d) db
       |> fun db1 =>
         (view.fundedEvents (cursor.getD 0) view.currentBlock).foldl
           (fun d ev => handleEscrowFunded chainId ev d) db1))

/-! ## Concrete fixtures used by witnesses and counterexamples -/

/-- A funded native-asset record: client 1, provider 2, arbitrator 3,
amount 1000000 wei, fee 250 basis points (the contract default). -/
def sampleFunded : EscrowData :=
  { client := 1, provider := 2, arbitrator := 3, token := 0,
    amount := 1000000, fee := 250, status := .FUNDED, createdAt := 100,
    deadline := 0, description := "x" }

/-- Contract storage holding a single record `e` at id 0, with address 3
globally authorized as arbitrator and address 7 as fee collector. -/
def sampleState (e : EscrowData) : ContractState :=
  { escrowIdCounter := 1
    escrows := setEscrowMap (fun _ => EscrowData.empty) 0 e
    authorizedArbitrators := fun a => a == 3
    defaultFee := 250
    feeCollector := 7
    collectedFees := fun _ => 0 }

def fundedState : ContractState := sampleState sampleFunded

def releasedState : ContractState := sampleState { sampleFunded with status := .RELEASED }

def disputedState : ContractState := sampleState { sampleFunded with status := .DISPUTED }

def createdState : ContractState := sampleState { sampleFunded with status := .CREATED }

/-! ## Helper lemmas -/

/-- Reading back the record whose status was just written. -/
theorem setStatusState_read (s : ContractState) (i : Nat) (st : EscrowStatus) :
    (setStatusState s i st).escrows i = { s.escrows i with status := st } := by
  simp [setStatusState, setEscrowMap]

/-- Outcome of every successful `releaseToProvider` call: the action
trace (status write, provider payout, fee payout when nonzero), the
no-underflow fact the checked subtraction guarantees, and the final
`escrows` mapping. -/
theorem release_ok_spec (caller : Nat) (s : ContractState) (escrowId : Nat)
    (t : ContractState) (l : List Action)
    (h : releaseToProvider caller s escrowId = .ok (t, l)) :
    l = Action.setStatus escrowId .RELEASED ::
        Action.extTransfer (s.escrows escrowId).token (s.escrows escrowId).provider
          (providerAmountOf (s.escrows escrowId)) ::
        (if feeAmountOf (s.escrows escrowId) = 0 then []
         else [Action.extTransfer (s.escrows escrowId).token s.feeCollector
                 (feeAmountOf (s.escrows escrowId))]) ∧
    feeAmountOf (s.escrows escrowId) ≤ (s.escrows escrowId).amount ∧
    t.escrows = setEscrowMap s.escrows escrowId
      { s.escrows escrowId with status := .RELEASED } := by
  unfold releaseToProvider at h
  split_ifs at h with h1 h2 h3 h4 h5 h6 h7
  · rw [Except.ok.injEq, Prod.mk.injEq] at h
    refine ⟨?_, Nat.le_of_not_lt h5, ?_⟩
    · rw [← h.2, h6]
      simp
    · rw [← h.1]
      rfl
  · rw [Except.ok.injEq, Prod.mk.injEq] at h
    refine ⟨?_, Nat.le_of_not_lt h5, ?_⟩
    · rw [← h.2, if_neg h6]
    · rw [← h.1]
      rfl

/-! ## Claim theorems -/

/-- C2: for every FUNDED record with amount `A` and snapshotted fee rate
`F`, a successful `releaseToProvider` pays the provider exactly
`A - floor(A*F/10000)` and the fee collector exactly `floor(A*F/10000)`
(nothing at all when that floor is zero), and the two payouts sum to
exactly `A`. -/
theorem release_fee_split (caller : Nat) (s : ContractState) (escrowId : Nat)
    (t : ContractState) (l : List Action)
    (h : releaseToProvider caller s escrowId = .ok (t, l)) :
    l = Action.setStatus escrowId .RELEASED ::
        Action.extTransfer (s.escrows escrowId).token (s.escrows escrowId).provider
          (providerAmountOf (s.escrows escrowId)) ::
        (if feeAmountOf (s.escrows escrowId) = 0 then []
         else [Action.extTransfer (s.escrows escrowId).token s.feeCollector
                 (feeAmountOf (s.escrows escrowId))]) ∧
    providerAmountOf (s.escrows escrowId) + feeAmountOf (s.escrows escrowId) =
      (s.escrows escrowId).amount := by
  obtain ⟨hl, hle, -⟩ := release_ok_spec caller s escrowId t l h
  refine ⟨hl, ?_⟩
  simp only [providerAmountOf]
  omega

/-- C2 witness: releasing the sample record (amount 1000000, fee 250)
pays the provider 975000 and the collector 25000, summing to 1000000. -/
theorem release_fee_split_witness :
    (Action.setStatus 0 EscrowStatus.RELEASED ::
       Action.extTransfer 0 2 975000 ::
       [Action.extTransfer 0 7 25000] : List Action) =
      Action.setStatus 0 .RELEASED ::
        Action.extTransfer (fundedState.escrows 0).token (fundedState.escrows 0).provider
          (providerAmountOf (fundedState.escrows 0)) ::
        (if feeAmountOf (fundedState.escrows 0) = 0 then []
         else [Action.extTransfer (fundedState.escrows 0).token fundedState.feeCollector
                 (feeAmountOf (fundedState.escrows 0))]) ∧
    providerAmountOf (fundedState.escrows 0) + feeAmountOf (fundedState.escrows 0) =
      (fundedState.escrows 0).amount :=
  release_fee_split 1 fundedState 0
    { setStatusState fundedState 0 .RELEASED with
      collectedFees := bumpCollected fundedState.collectedFees 0 25000 }
    (Action.setStatus 0 .RELEASED ::
       Action.extTransfer 0 2 975000 :: [Action.extTransfer 0 7 25000]) rfl

/-- C6: in a successful `releaseToProvider`, the storage write of status
RELEASED is the first action of the call, and every external value
transfer happens strictly after it — no external call executes while the
record is still FUNDED. -/
theorem release_status_before_transfers (caller : Nat) (s : ContractState)
    (escrowId : Nat) (t : ContractState) (l : List Action)
    (h : releaseToProvider caller s escrowId = .ok (t, l)) :
    l.get? 0 = some (Action.setStatus escrowId .RELEASED) ∧
    ∀ j tok dst amt, l.get? j = some (Action.extTransfer tok dst amt) →
      0 < j := by
  obtain ⟨hl, -, -⟩ := release_ok_spec caller s escrowId t l h
  rw [hl]
  refine ⟨rfl, ?_⟩
  intro j tok dst amt hj
  cases j with
  | zero => exact absurd (Option.some.inj hj) (by intro hc; cases hc)
  | succ k => exact Nat.succ_pos k

/-- C6 witness: a concrete successful release whose trace opens with the
RELEASED status write and whose transfer at index 1 comes strictly
after it. -/
theorem release_status_before_transfers_witness :
    (Action.setStatus 0 EscrowStatus.RELEASED ::
       Action.extTransfer 0 2 975000 ::
       [Action.extTransfer 0 7 25000] : List Action).get? 0 =
      some (Action.setStatus 0 .RELEASED) ∧ 0 < 1 :=
  ⟨(release_status_before_transfers 1 fundedState 0
      { setStatusState fundedState 0 .RELEASED with
        collectedFees := bumpCollected fundedState.collectedFees 0 25000 }
      (Action.setStatus 0 .RELEASED ::
         Action.extTransfer 0 2 975000 :: [Action.extTransfer 0 7 25000]) rfl).1,
   (release_status_before_transfers 1 fundedState 0
      { setStatusState fundedState 0 .RELEASED with
        collectedFees := bumpCollected fundedState.collectedFees 0 25000 }
      (Action.setStatus 0 .RELEASED ::
         Action.extTransfer 0 2 975000 :: [Action.extTransfer 0 7 25000]) rfl).2
      1 0 2 975000 rfl⟩

/-- C1 (amended): once a record is RELEASED, REFUNDED or CANCELLED every
state-changing operation against it fails and, the call reverting, leaves
status, amount and fund custody untouched; the error is the invalid-state
revert for fund, release, openDispute, resolveDispute and cancel (any
caller), and for refund by an authorized arbitrator — but refund by a
caller who is not an authorized arbitrator reverts with the
authorization error instead, because `refundToClient` checks the
`onlyArbitrator` modifier before its in-body status check. -/
theorem terminal_ops_fail (s : ContractState) (escrowId : Nat)
    (hex : (s.escrows escrowId).client ≠ 0)
    (hterm : (s.escrows escrowId).status.isTerminal) :
    (∀ caller value, fundEscrow caller value s escrowId = .error .invalidStatus) ∧
    (∀ caller, releaseToProvider caller s escrowId = .error .invalidStatus) ∧
    (∀ caller, openDispute caller s escrowId = .error .invalidStatus) ∧
    (∀ caller b, resolveDispute caller s escrowId b = .error .invalidStatus) ∧
    (∀ caller, cancelEscrow caller s escrowId = .error .invalidStatus) ∧
    (∀ caller, (s.authorizedArbitrators caller = true ∨
                caller = (s.escrows escrowId).arbitrator) →
        refundToClient caller s escrowId = .error .invalidStatus) ∧
    (∀ caller, ¬(s.authorizedArbitrators caller = true ∨
                 caller = (s.escrows escrowId).arbitrator) →
        refundToClient caller s escrowId = .error .notArbitrator) := by
  cases hst : (s.escrows escrowId).status <;>
    rw [hst] at hterm <;>
    simp only [EscrowStatus.isTerminal] at hterm
  all_goals
    refine ⟨?_, ?_, ?_, ?_, ?_, ?_, ?_⟩
  all_goals
    intro caller
  all_goals
    first
      | (intro hcond
         simp [fundEscrow, releaseToProvider, openDispute, resolveDispute,
               cancelEscrow, refundToClient, hex, hst, hcond])
      | simp [fundEscrow, releaseToProvider, openDispute, resolveDispute,
              cancelEscrow, refundToClient, hex, hst]

/-- C1 counterexample: against a RELEASED record, `refundToClient` by a
caller who is not an authorized arbitrator reverts with the
authorization error, not the invalid-state error the claim requires of
every state-changing call. -/
theorem terminal_refund_wrong_error :
    refundToClient 99 releasedState 0 = .error .notArbitrator ∧
    refundToClient 99 releasedState 0 ≠ .error .invalidStatus := by
  refine ⟨rfl, fun hc => ?_⟩
  rw [show refundToClient 99 releasedState 0 = .error .notArbitrator from rfl] at hc
  exact absurd (Except.error.inj hc) (by decide)

/-- C1 witness: all six operations revert against a concrete RELEASED
record, with the invalid-state error everywhere except refund by the
unauthorized caller 99. -/
theorem terminal_ops_fail_witness :
    fundEscrow 1 1000000 releasedState 0 = .error .invalidStatus ∧
    releaseToProvider 3 releasedState 0 = .error .invalidStatus ∧
    openDispute 2 releasedState 0 = .error .invalidStatus ∧
    resolveDispute 3 releasedState 0 true = .error .invalidStatus ∧
    cancelEscrow 1 releasedState 0 = .error .invalidStatus ∧
    refundToClient 3 releasedState 0 = .error .invalidStatus ∧
    refundToClient 99 releasedState 0 = .error .notArbitrator := by
  have h := terminal_ops_fail releasedState 0 (by decide) (by decide)
  exact ⟨h.1 1 1000000, h.2.1 3, h.2.2.1 2, h.2.2.2.1 3 true, h.2.2.2.2.1 1,
         h.2.2.2.2.2.1 3 (by decide), h.2.2.2.2.2.2 99 (by decide)⟩

/-- C4: funding a CREATED native-asset record as the client succeeds and
moves exactly the record status to FUNDED precisely when the attached
value equals `amount`; any other attached value reverts with the
amount-mismatch error (and, the call reverting, the status stays
CREATED). -/
theorem fund_native_exact_amount (caller value : Nat) (s : ContractState)
    (escrowId : Nat)
    (hex : (s.escrows escrowId).client ≠ 0)
    (hst : (s.escrows escrowId).status = .CREATED)
    (htok : (s.escrows escrowId).token = 0)
    (hc : caller = (s.escrows escrowId).client) :
    (value = (s.escrows escrowId).amount →
      fundEscrow caller value s escrowId =
        .ok (setStatusState s escrowId .FUNDED,
             [Action.setStatus escrowId .FUNDED])) ∧
    (value ≠ (s.escrows escrowId).amount →
      fundEscrow caller value s escrowId = .error .wrongEthAmount) ∧
    (setStatusState s escrowId .FUNDED).escrows escrowId =
      { s.escrows escrowId with status := .FUNDED } := by
  refine ⟨fun hv => ?_, fun hv => ?_, ?_⟩
  · simp [fundEscrow, hex, hst, htok, hc, hv]
  · simp [fundEscrow, hex, hst, htok, hc, hv]
  · simp [setStatusState, setEscrowMap]

/-- C4 witness: funding the concrete CREATED record with exactly 1000000
succeeds and marks it FUNDED; funding it with 999999 reverts with the
amount-mismatch error. -/
theorem fund_native_exact_amount_witness :
    fundEscrow 1 1000000 createdState 0 =
      .ok (setStatusState createdState 0 .FUNDED,
           [Action.setStatus 0 .FUNDED]) ∧
    fundEscrow 1 999999 createdState 0 = .error .wrongEthAmount :=
  ⟨(fund_native_exact_amount 1 1000000 createdState 0 (by decide) (by decide)
      (by decide) (by decide)).1 (by decide),
   (fund_native_exact_amount 1 999999 createdState 0 (by decide) (by decide)
      (by decide) (by decide)).2.1 (by decide)⟩

/-- C5: refund by an authorized arbitrator of a FUNDED or DISPUTED record
sets status REFUNDED and transfers the full original amount to the
client with no fee deducted; from any other status the call reverts with
the invalid-state error. -/
theorem refund_full_no_fee (caller : Nat) (s : ContractState) (escrowId : Nat)
    (hex : (s.escrows escrowId).client ≠ 0)
    (hauth : s.authorizedArbitrators caller = true ∨
             caller = (s.escrows escrowId).arbitrator) :
    ((s.escrows escrowId).status = .FUNDED ∨
     (s.escrows escrowId).status = .DISPUTED →
      refundToClient caller s escrowId =
        .ok (setStatusState s escrowId .REFUNDED,
             [Action.setStatus escrowId .REFUNDED,
              Action.extTransfer (s.escrows escrowId).token
                (s.escrows escrowId).client (s.escrows escrowId).amount])) ∧
    (¬((s.escrows escrowId).status = .FUNDED ∨
       (s.escrows escrowId).status = .DISPUTED) →
      refundToClient caller s escrowId = .error .invalidStatus) ∧
    (setStatusState s escrowId .REFUNDED).escrows escrowId =
      { s.escrows escrowId with status := .REFUNDED } := by
  refine ⟨fun hst => ?_, fun hst => ?_, ?_⟩
  · simp [refundToClient, hex, hauth, hst]
  · simp [refundToClient, hex, hauth, hst]
  · simp [setStatusState, setEscrowMap]

/-- C5 witness: arbitrator 3 refunds the concrete FUNDED record — the
full 1000000 goes back to client 1, no fee — while refunding the CREATED
record reverts with the invalid-state error. -/
theorem refund_full_no_fee_witness :
    refundToClient 3 fundedState 0 =
      .ok (setStatusState fundedState 0 .REFUNDED,
           [Action.setStatus 0 .REFUNDED, Action.extTransfer 0 1 1000000]) ∧
    refundToClient 3 createdState 0 = .error .invalidStatus :=
  ⟨(refund_full_no_fee 3 fundedState 0 (by decide) (by decide)).1 (by decide),
   (refund_full_no_fee 3 createdState 0 (by decide) (by decide)).2.1 (by decide)⟩

/-- C3: from a DISPUTED record, an authorized arbitrator ruling for the
client produces exactly the outcome of `refundToClient` (same call,
same final state, same transfers: the full amount back to the client,
no fee), and ruling for the provider produces exactly the outcome of
`releaseToProvider` run on the record marked FUNDED (the temporary
overwrite the source performs), whose transfers — when the delegated
release succeeds — are the fee-split payouts to provider and fee
collector with status ending RELEASED; the fee is charged only on the
release path. -/
theorem resolveDispute_delegates (caller : Nat) (s : ContractState)
    (escrowId : Nat)
    (hex : (s.escrows escrowId).client ≠ 0)
    (hst : (s.escrows escrowId).status = .DISPUTED)
    (hauth : s.authorizedArbitrators caller = true ∨
             caller = (s.escrows escrowId).arbitrator) :
    resolveDispute caller s escrowId true = refundToClient caller s escrowId ∧
    resolveDispute caller s escrowId false =
      releaseToProvider caller (setStatusState s escrowId .FUNDED) escrowId ∧
    resolveDispute caller s escrowId true =
      .ok (setStatusState s escrowId .REFUNDED,
           [Action.setStatus escrowId .REFUNDED,
            Action.extTransfer (s.escrows escrowId).token
              (s.escrows escrowId).client (s.escrows escrowId).amount]) ∧
    (∀ t l, resolveDispute caller s escrowId false = .ok (t, l) →
      l = Action.setStatus escrowId .RELEASED ::
          Action.extTransfer (s.escrows escrowId).token
            (s.escrows escrowId).provider
            (providerAmountOf (s.escrows escrowId)) ::
          (if feeAmountOf (s.escrows escrowId) = 0 then []
           else [Action.extTransfer (s.escrows escrowId).token s.feeCollector
                   (feeAmountOf (s.escrows escrowId))]) ∧
      (t.escrows escrowId).status = .RELEASED) := by
  have hdeleg1 : resolveDispute caller s escrowId true =
      refundToClient caller s escrowId := by
    simp [resolveDispute, hex, hst, hauth]
  have hdeleg2 : resolveDispute caller s escrowId false =
      releaseToProvider caller (setStatusState s escrowId .FUNDED) escrowId := by
    simp [resolveDispute, hex, hst, hauth]
  refine ⟨hdeleg1, hdeleg2, ?_, ?_⟩
  · rw [hdeleg1]
    simp [refundToClient, hex, hauth, hst]
  · intro t l h
    rw [hdeleg2] at h
    obtain ⟨hl, -, ht⟩ := release_ok_spec caller _ escrowId t l h
    rw [setStatusState_read] at hl
    refine ⟨?_, ?_⟩
    · simpa [providerAmountOf, feeAmountOf] using hl
    · rw [ht]
      simp [setEscrowMap]

/-- C3 witness: for the concrete DISPUTED record and arbitrator 3, the
client ruling coincides with `refundToClient` and the provider ruling
with `releaseToProvider` on the FUNDED-marked record. -/
theorem resolveDispute_delegates_witness :
    resolveDispute 3 disputedState 0 true = refundToClient 3 disputedState 0 ∧
    resolveDispute 3 disputedState 0 false =
      releaseToProvider 3 (setStatusState disputedState 0 .FUNDED) 0 :=
  ⟨(resolveDispute_delegates 3 disputedState 0 (by decide) (by decide)
      (by decide)).1,
   (resolveDispute_delegates 3 disputedState 0 (by decide) (by decide)
      (by decide)).2.1⟩

/-! ## Indexer helper lemmas -/

/-- Appending a record with a hitherto absent key makes it the `findOne`
result for that key. -/
theorem findOne_append_fresh (db : List ReplicaRecord) (r : ReplicaRecord)
    (c i : Nat) (h : findOne db c i = none) (hr : keyMatches c i r = true) :
    findOne (db ++ [r]) c i = some r := by
  unfold findOne at h ⊢
  rw [List.find?_append, h, Option.none_or]
  exact List.find?_cons_of_pos _ hr

/-- The insert branch of `saveRecord`. -/
theorem saveRecord_fresh (db : List ReplicaRecord) (r : ReplicaRecord)
    (h : findOne db r.chainId r.escrowId = none) :
    saveRecord db r = db ++ [r] := by
  simp [saveRecord, h]

/-- `find?` over a map that replaces every matching element by `r`: when
the predicate holds of `r` and some element already matched, the lookup
returns `r`. -/
theorem find?_map_replace (p : ReplicaRecord → Bool) (r : ReplicaRecord)
    (hp : p r = true) (db : List ReplicaRecord)
    (h : (db.find? p).isSome = true) :
    (db.map (fun x => if p x = true then r else x)).find? p = some r := by
  induction db with
  | nil => simp at h
  | cons x xs ih =>
    by_cases hx : p x = true
    · rw [List.map_cons, if_pos hx, List.find?_cons_of_pos _ hp]
    · rw [List.map_cons, if_neg hx, List.find?_cons_of_neg _ hx]
      rw [List.find?_cons_of_neg _ hx] at h
      exact ih h

/-- The update branch of `saveRecord`: after saving `r` over an existing
row with key `(c, i)`, looking that key up yields `r`. -/
theorem findOne_saveRecord_existing (db : List ReplicaRecord) (r : ReplicaRecord)
    (c i : Nat) (hc : r.chainId = c) (hi : r.escrowId = i)
    (h : (findOne db c i).isSome = true) :
    findOne (saveRecord db r) c i = some r := by
  subst hc
  subst hi
  unfold saveRecord
  rw [if_pos h]
  unfold findOne at h ⊢
  exact find?_map_replace _ r (by simp [keyMatches]) db h

/-! ## Indexer fixtures -/

/-- A funded event for escrow id 0. -/
def fundedEv0 : FundedEvent := { escrowId := 0, funder := 1, amount := 1000000 }

/-- A creation event for escrow id 0 matching `sampleFunded`. -/
def createdEv0 : CreatedEvent :=
  { escrowId := 0, client := 1, provider := 2, token := 0, amount := 1000000,
    deadline := 0, transactionHash := 11, blockNumber := 5 }

/-- Canonical chain view used by indexer witnesses: every id reads back
the sample record. -/
def sampleCanonical : Nat → EscrowData := fun _ => sampleFunded

/-- A replica row for `(chain 1, id 0)` already marked RELEASED
(status code 3). -/
def releasedRow : ReplicaRecord :=
  { chainId := 1, escrowId := 0, client := 1, provider := 2, arbitrator := 3,
    token := 0, amount := 1000000, fee := 250, status := 3, deadline := none,
    description := "x", transactionHash := 11, blockNumber := 5 }

/-! ## Indexer claim theorems -/

/-- C7 counterexample: a funded event whose `(chain, id)` is absent from
the replica does not cause a canonical fetch and backfill — the handler
leaves the replica empty, inserting no record at all. -/
theorem funded_event_no_backfill :
    handleEscrowFunded 1 fundedEv0 [] = [] ∧
    findOne (handleEscrowFunded 1 fundedEv0 []) 1 0 = none := by
  exact ⟨rfl, rfl⟩

/-- C7 (amended): `handleEscrowFunded` skips a funded event whose
`(chain, id)` has no replica record: the replica is returned unchanged
(no fetch, no insert, no error). -/
theorem handleEscrowFunded_skips_absent (chainId : Nat) (ev : FundedEvent)
    (db : List ReplicaRecord) (h : findOne db chainId ev.escrowId = none) :
    handleEscrowFunded chainId ev db = db := by
  unfold handleEscrowFunded
  rw [h]

/-- C7 witness: the skip at the concrete empty replica. -/
theorem handleEscrowFunded_skips_absent_witness :
    handleEscrowFunded 1 fundedEv0 [] = [] :=
  handleEscrowFunded_skips_absent 1 fundedEv0 [] rfl

/-- C8: processing the same creation event twice against a replica that
does not yet hold its `(chain, id)` is idempotent — the second
application detects the existing row and changes nothing — and the
replica ends up with exactly one row for that key. -/
theorem handleEscrowCreated_idempotent (canonical : Nat → EscrowData)
    (chainId : Nat) (ev : CreatedEvent) (db : List ReplicaRecord)
    (h : findOne db chainId ev.escrowId = none) :
    handleEscrowCreated canonical chainId ev
        (handleEscrowCreated canonical chainId ev db) =
      handleEscrowCreated canonical chainId ev db ∧
    ((handleEscrowCreated canonical chainId ev db).filter
        (keyMatches chainId ev.escrowId)).length = 1 := by
  have hrow : handleEscrowCreated canonical chainId ev db =
      db ++ [createdRow canonical chainId ev] := by
    unfold handleEscrowCreated
    rw [h]
    exact saveRecord_fresh db _ h
  have hfound : findOne (db ++ [createdRow canonical chainId ev]) chainId
      ev.escrowId = some (createdRow canonical chainId ev) :=
    findOne_append_fresh db _ chainId ev.escrowId h
      (by simp [keyMatches, createdRow])
  constructor
  · rw [hrow]
    unfold handleEscrowCreated
    rw [hfound]
  · rw [hrow, List.filter_append]
    have hnil : db.filter (keyMatches chainId ev.escrowId) = [] := by
      rw [List.filter_eq_nil_iff]
      intro a ha
      unfold findOne at h
      exact List.find?_eq_none.mp h a ha
    rw [hnil]
    simp [keyMatches, createdRow]

/-- C8 witness: replaying `createdEv0` twice against the empty replica
leaves a single row for chain 1, id 0. -/
theorem handleEscrowCreated_idempotent_witness :
    handleEscrowCreated sampleCanonical 1 createdEv0
        (handleEscrowCreated sampleCanonical 1 createdEv0 []) =
      handleEscrowCreated sampleCanonical 1 createdEv0 [] ∧
    ((handleEscrowCreated sampleCanonical 1 createdEv0 []).filter
        (keyMatches 1 0)).length = 1 :=
  handleEscrowCreated_idempotent sampleCanonical 1 createdEv0 [] rfl

/-- C10: when the `(chain, id)` of a funded event exists in the replica,
`handleEscrowFunded` unconditionally rewrites that row with status 1
(FUNDED), whatever its current replica status — so a re-delivered funded
event drags a later status (RELEASED, REFUNDED, DISPUTED) back to
FUNDED. -/
theorem handleEscrowFunded_overwrites (chainId : Nat) (ev : FundedEvent)
    (db : List ReplicaRecord) (e : ReplicaRecord)
    (h : findOne db chainId ev.escrowId = some e) :
    handleEscrowFunded chainId ev db = saveRecord db { e with status := 1 } ∧
    findOne (handleEscrowFunded chainId ev db) chainId ev.escrowId =
      some { e with status := 1 } := by
  have hkey : keyMatches chainId ev.escrowId e = true := List.find?_some h
  have hc : e.chainId = chainId := by
    simp [keyMatches] at hkey
    exact hkey.1
  have hi : e.escrowId = ev.escrowId := by
    simp [keyMatches] at hkey
    exact hkey.2
  have h1 : handleEscrowFunded chainId ev db =
      saveRecord db { e with status := 1 } := by
    unfold handleEscrowFunded
    rw [h]
  refine ⟨h1, ?_⟩
  rw [h1]
  refine findOne_saveRecord_existing db _ chainId ev.escrowId hc hi ?_
  rw [h]
  rfl

/-- C10 witness: a replica row already RELEASED (status 3) for chain 1,
id 0 is overwritten back to status 1 by a re-delivered funded event. -/
theorem handleEscrowFunded_overwrites_witness :
    handleEscrowFunded 1 fundedEv0 [releasedRow] =
      saveRecord [releasedRow] { releasedRow with status := 1 } ∧
    findOne (handleEscrowFunded 1 fundedEv0 [releasedRow]) 1 0 =
      some { releasedRow with status := 1 } :=
  handleEscrowFunded_overwrites 1 fundedEv0 [releasedRow] releasedRow rfl

/-- C9 counterexample: with cursor 5 and current block 10 the queried
window starts at block 5 — the cursor block itself — not at
`cursor + 1 = 6` as the claim states. -/
theorem syncWindow_starts_at_cursor :
    syncWindow (some 5) 10 = some (5, 10) ∧
    syncWindow (some 5) 10 ≠ some (5 + 1, 10) := by
  decide

/-- C9 (amended): a poll cycle queries the window from
`fromBlock = cursor (or 0 when unset)` to `to = currentBlock`; it is a
no-op exactly when `fromBlock ≥ to` (extensionally the claimed
`cursor + 1 > to`), and otherwise fetches the created and funded events
of `[fromBlock, to]`, applies the handlers in order, and advances the
cursor to `to`. -/
theorem syncChainEvents_window (view : ChainView) (chainId : Nat)
    (cursor : Option Nat) (db : List ReplicaRecord) :
    (view.currentBlock ≤ cursor.getD 0 →
      syncWindow cursor view.currentBlock = none ∧
      syncChainEvents view chainId cursor db = (cursor, db)) ∧
    (cursor.getD 0 < view.currentBlock →
      syncWindow cursor view.currentBlock =
        some (cursor.getD 0, view.currentBlock) ∧
      syncChainEvents view chainId cursor db =
        (some view.currentBlock,
         (view.fundedEvents (cursor.getD 0) view.currentBlock).foldl
           (fun d ev => handleEscrowFunded chainId ev d)
           ((view.createdEvents (cursor.getD 0) view.currentBlock).foldl
             (fun d ev => handleEscrowCreated view.canonical chainId ev d)
             db))) := by
  constructor
  · intro hge
    constructor
    · rw [syncWindow, if_pos hge]
    · rw [syncChainEvents, if_pos hge]
  · intro hlt
    have hnge : ¬ cursor.getD 0 ≥ view.currentBlock := Nat.not_le.mpr hlt
    constructor
    · rw [syncWindow, if_neg hnge]
    · rw [syncChainEvents, if_neg hnge]

/-- An event-free chain view at height 10. -/
def emptyView : ChainView :=
  { currentBlock := 10
    createdEvents := fun _ _ => []
    fundedEvents := fun _ _ => []
    canonical := fun _ => EscrowData.empty }

/-- C9 witness: at cursor 5 and height 10 the cycle runs over window
[5, 10] and advances the cursor to 10; at cursor 10 it is a no-op. -/
theorem syncChainEvents_window_witness :
    (syncWindow (some 5) 10 = some (5, 10) ∧
     syncChainEvents emptyView 1 (some 5) [] = (some 10, [])) ∧
    (syncWindow (some 10) 10 = none ∧
     syncChainEvents emptyView 1 (some 10) [] = (some 10, [])) :=
  ⟨(syncChainEvents_window emptyView 1 (some 5) []).2 (by decide),
   (syncChainEvents_window emptyView 1 (some 10) []).1 (by decide)⟩

end EscrowWeb3
